import Mathlib

/-!
Verification of the single-producer multi-consumer memory-mapped message
queue implemented in source/main/cpp/c_mmmq.cpp of the cmmio repository.

The C structures and functions are shallowly embedded: the logical content
of the three mapped files (index.mm, data.mm, control.mm) becomes record
fields, machine integers become Nat with explicit reductions modulo 2 ^ 64
or 2 ^ 32 where the source performs u64 or u32 truncation, and the external
mmap facade (namespace nmmio) together with the POSIX semaphore calls is
represented by explicit success parameters and by recorded base addresses
and sizes of the mapped-file objects.

Byte counts used below, computed from the struct declarations in the
source: sizeof(index_header_t) = 32, sizeof(index_entry_t) = 24,
sizeof(data_header_t) = 32, sizeof(consumer_slot_t) = 64 with a 44 byte
name buffer.
-/

-- ====== Public constants (c_mmmq.cpp lines 20-25) ======

def MMQ_ALIGN : Nat := 8

def MMQ_MAGIC_INDEX : Nat := 0x1CEB00FDEADBEEF

def MMQ_MAGIC_DATA : Nat := 0xDA7A5E90D0D0F0D

def MMQ_MAGIC_CONTROL : Nat := 0xC017301D00DFACE

-- Flag bits, from the comment on index_entry_t.m_flags (line 37):
-- bit0=PENDING, bit1=READY, bit2=ABORTED

def MMQ_FLAG_PENDING : Nat := 1

def MMQ_FLAG_READY : Nat := 2

def MMQ_FLAG_ABORTED : Nat := 4

-- ====== Error codes (enum EErrorCodes, c_mmmq.cpp lines 201-217) ======

def MMQ_ERR_OK : Int := 0

def MMQ_ERR_INDEX_OPEN_RW : Int := -1

def MMQ_ERR_DATA_OPEN_RW : Int := -2

def MMQ_ERR_CONTROL_OPEN_RW : Int := -3

def MMQ_ERR_INDEX_SANITY : Int := -4

def MMQ_ERR_DATA_SANITY : Int := -5

def MMQ_ERR_CONTROL_SANITY : Int := -6

def MMQ_ERR_SEMAPHORE_OPEN : Int := -7

def MMQ_ERR_REGISTRY_LOCK : Int := -8

def MMQ_ERR_CONSUMER_SLOTS_FULL : Int := -9

def MMQ_ERR_INDEX_EXTEND : Int := -10

def MMQ_ERR_DATA_EXTEND : Int := -11

def MMQ_ERR_NO_MSG_AVAILABLE : Int := -12

def MMQ_ERR_TIMEDOUT : Int := -13

/-- Entry of index.mm, struct index_entry_t (c_mmmq.cpp lines 32-38).
Field widths in the source are u64 (m_seq), u64 (m_off8), u32 (m_len),
u32 (m_flags); writers store values already reduced to the field width. -/
structure index_entry_t where
  m_seq : Nat
  m_off8 : Nat
  m_len : Nat
  m_flags : Nat

/-- Consumer slot of control.mm, struct consumer_slot_t (lines 65-71).
The fixed 44 byte char m_name buffer is modeled as a byte function; only
indices 0 .. 43 are ever read or written by the embedded operations. -/
structure consumer_slot_t where
  m_last_update_ns : Nat
  m_last_seq : Nat
  m_active : Nat
  m_name : Nat → Nat

/-- Combined logical state of one queue: the mutable content of the three
mapped files (headers of index_header_t, data_header_t, control_header_t
plus the entry array, the payload arena and the slot table), the size
bookkeeping fields of handle_t, and the base-address and size state of the
mapped-file objects of the nmmio facade together with the cached producer
views of producer_t.  Addresses are abstract Nat values; remapping a file
may change its base, which extend_size reports through a parameter of the
operations below. -/
structure QState where
  -- index.mm header (index_header_t) and entry array
  ih_next_seq : Nat
  ih_entry_count : Nat
  entries : Nat → index_entry_t
  -- data.mm header (data_header_t) and payload arena (byte at offset i)
  dh_write_pos : Nat
  dh_file_size : Nat
  payload : Nat → Nat
  -- control.mm header (control_header_t) and slot table
  ch_notify_seq : Nat
  ch_max_consumers : Nat
  slots : Nat → consumer_slot_t
  -- handle_t size bookkeeping
  h_index_size : Nat
  h_data_size : Nat
  -- nmmio mapped-file objects: current size and base address
  mf_index_size : Nat
  mf_index_base : Nat
  mf_data_size : Nat
  mf_data_base : Nat
  -- producer_t cached views: cached bases and typed header pointers
  p_index_base : Nat
  p_data_base : Nat
  p_ih_base : Nat
  p_dh_base : Nat

/-- align_up_u64 (c_mmmq.cpp line 408): (x + (a - 1)) & ~(a - 1) on u64.
For the only alignment used by the source (a = 8, a power of two) the mask
form equals clearing the low bits, rendered here as division and
multiplication after the u64 wraparound of the addition. -/
def align_up_u64 (x a : Nat) : Nat := (x + (a - 1)) % 2 ^ 64 / a * a

/-- State produced by the create path of init_producer (c_mmmq.cpp lines
220-319) when none of the three files exists yet: fresh zero-filled
mappings of the configured sizes, index header stamped with next_seq = 0
and entry_count = 0, data header stamped with write_pos = 0 and
file_size = data size - sizeof(data_header_t), control area zeroed and
stamped with max_consumers and notify_seq = 0. -/
def init_producer (index_initial_bytes data_initial_bytes max_consumers
    index_base data_base : Nat) : QState :=
  { ih_next_seq := 0
    ih_entry_count := 0
    entries := fun _ => { m_seq := 0, m_off8 := 0, m_len := 0, m_flags := 0 }
    dh_write_pos := 0
    dh_file_size := data_initial_bytes - 32
    payload := fun _ => 0
    ch_notify_seq := 0
    ch_max_consumers := max_consumers
    slots := fun _ =>
      { m_last_update_ns := 0, m_last_seq := 0, m_active := 0, m_name := fun _ => 0 }
    h_index_size := index_initial_bytes
    h_data_size := data_initial_bytes
    mf_index_size := index_initial_bytes
    mf_index_base := index_base
    mf_data_size := data_initial_bytes
    mf_data_base := data_base
    p_index_base := index_base
    p_data_base := data_base
    p_ih_base := index_base
    p_dh_base := data_base }

/-- Successful data grow inside publish (c_mmmq.cpp lines 420-431): the
file is truncated to h->m_data_size * 11 / 10, the mapped-file size and
base are re-read, the cached data base and the typed data-header pointer
are re-derived from the new base, and m_file_size is recomputed from the
new size.  The payload bytes and the other header fields survive the
remap because they live in the file. -/
def grow_data (s : QState) (new_data_base : Nat) : QState :=
  let new_size := s.h_data_size * 11 / 10
  { s with
    h_data_size := new_size
    mf_data_size := new_size
    mf_data_base := new_data_base
    p_data_base := new_data_base
    p_dh_base := new_data_base
    dh_file_size := new_size - 32 }

/-- Payload write of publish (c_mmmq.cpp lines 433-437): memcpy of len
message bytes at offset pos into the payload arena, memset of the padded
tail bytes pos + len .. pos + span to zero, then write_pos = end. -/
def write_payload (s : QState) (msg : Nat → Nat) (len pos span endp : Nat) : QState :=
  { s with
    payload := fun i =>
      if pos ≤ i ∧ i < pos + len then msg (i - pos)
      else if pos + len ≤ i ∧ i < pos + span then 0
      else s.payload i
    dh_write_pos := endp }

/-- Successful index grow inside publish (c_mmmq.cpp lines 442-453): the
index file is truncated to sizeof(index_header_t) + (seq + 64 * 1024) *
sizeof(index_entry_t) and remapped, which updates the mapped-file object;
the source then executes p->m_ih = (index_header_t*)p->m_index_base, that
is, it re-derives the typed pointer from the stale cached base instead of
re-reading nmmio::address_rw, and it never updates h->m_index_size.  Both
facts are modeled exactly as written. -/
def grow_index (s : QState) (new_index_base : Nat) : QState :=
  let seq := s.ih_next_seq
  let new_size := 32 + (seq + 64 * 1024) * 24
  { s with
    mf_index_size := new_size
    mf_index_base := new_index_base
    p_ih_base := s.p_index_base }

/-- Entry commit of publish (c_mmmq.cpp lines 455-465): entry seq receives
m_seq = seq, m_off8 = (u32)(pos >> 3), m_len = len (a u32 parameter); the
m_flags word is not written and keeps its previous content.  Then
next_seq = seq + 1, entry_count = next_seq, and notify_seq is incremented.
The store through the m_ih pointer is modeled as an update of the logical
index content; the pointer bookkeeping itself is tracked in p_ih_base. -/
def commit_entry (s : QState) (pos len : Nat) : QState :=
  let seq := s.ih_next_seq
  { s with
    entries := fun k =>
      if k = seq then
        { m_seq := seq
          m_off8 := pos / 8 % 2 ^ 32
          m_len := len % 2 ^ 32
          m_flags := (s.entries k).m_flags }
      else s.entries k
    ih_next_seq := seq + 1
    ih_entry_count := seq + 1
    ch_notify_seq := s.ch_notify_seq + 1 }

/-- publish (c_mmmq.cpp lines 411-470).  The two nmmio::extend_size calls
are external: data_extend_ok and index_extend_ok say whether they succeed,
and new_data_base and new_index_base are the base addresses the remaps
return when they happen.  Returns the i32 result of the source together
with the state after the call; note that the data-grow failure path
returns the literal -1 (not MMQ_ERR_DATA_EXTEND) exactly as line 426 does,
and that the payload write and the write_pos commit happen before the
index-room check, so an index-grow failure (MMQ_ERR_INDEX_EXTEND) leaves
the data file already modified. -/
def publish (s : QState) (msg : Nat → Nat) (len : Nat)
    (data_extend_ok index_extend_ok : Bool)
    (new_data_base new_index_base : Nat) : Int × QState :=
  let pos := align_up_u64 s.dh_write_pos MMQ_ALIGN
  let span := align_up_u64 len MMQ_ALIGN
  let endp := (pos + span) % 2 ^ 64
  if endp > s.dh_file_size ∧ data_extend_ok = false then
    (-1, s)
  else
    let s1 := if endp > s.dh_file_size then grow_data s new_data_base else s
    let s2 := write_payload s1 msg len pos span endp
    if 32 + (s2.ih_next_seq + 1) * 24 > s2.h_index_size ∧ index_extend_ok = false then
      (MMQ_ERR_INDEX_EXTEND, s2)
    else
      let s3 :=
        if 32 + (s2.ih_next_seq + 1) * 24 > s2.h_index_size then
          grow_index s2 new_index_base
        else s2
      (MMQ_ERR_OK, commit_entry s3 pos len)

/-- consumer_drain (c_mmmq.cpp lines 473-490).  Returns ((has_message,
msg_data, msg_len), new state); msg_data is the byte offset of the message
inside the payload arena (the source returns payload base + off), none
standing for the nullptr stored on the empty path.  The flags field of the
entry is not consulted anywhere on this path. -/
def consumer_drain (s : QState) (slot_index : Nat) : (Bool × Option Nat × Nat) × QState :=
  let self := s.slots slot_index
  if self.m_last_seq < s.ih_next_seq then
    let e := s.entries self.m_last_seq
    let off := e.m_off8 <<< 3
    ((true, some off, e.m_len),
     { s with
       slots := fun j =>
         if j = slot_index then
           { self with m_last_seq := self.m_last_seq + 1 }
         else s.slots j })
  else
    ((false, none, 0), s)

-- ====== C string helpers for the consumer registry ======

/-- Byte i of the NUL-terminated C string holding the bytes of l; reading
past the end of the list yields the terminator 0. -/
def cstr (l : List Nat) : Nat → Nat := fun i => l.getD i 0

/-- Whether none of the first i bytes of src is NUL. -/
def noNulBefore (src : Nat → Nat) (i : Nat) : Bool :=
  (List.range i).all fun j => src j != 0

/-- strncpy(dst, src, n) acting on an n-byte-or-larger buffer dst: bytes
of src up to and including its terminator are copied, the rest of the
first n bytes is NUL filled, and bytes at and beyond index n keep the old
buffer content (strncpy writes no terminator when src fills the bound). -/
def strncpy_buf (dst src : Nat → Nat) (n : Nat) : Nat → Nat :=
  fun i =>
    if i < n then (if noNulBefore src i then src i else 0)
    else dst i

/-- Whether strncmp(a, b, n) == 0: the first n bytes agree, or the strings
agree up to a common terminator inside the first n bytes. -/
def strncmp_is_eq : (Nat → Nat) → (Nat → Nat) → Nat → Bool
  | _, _, 0 => true
  | a, b, n + 1 =>
    if a 0 = b 0 then
      (if a 0 = 0 then true else strncmp_is_eq (fun i => a (i + 1)) (fun i => b (i + 1)) n)
    else false

/-- First index k with p k = true among i, i + 1, ... within the given
fuel, rendering the for loops of register_consumer that break at the
first hit. -/
def scan (p : Nat → Bool) : Nat → Nat → Option Nat
  | _, 0 => none
  | i, fuel + 1 => if p i then some i else scan p (i + 1) fuel

/-- First loop of register_consumer (c_mmmq.cpp lines 374-388): the lowest
slot index below max_consumers that is active and whose name buffer equals
name under strncmp with bound sizeof(m_name) = 44.  The inactive tracking
variable of the source loop is dead code and is omitted. -/
def find_matching_slot (s : QState) (name : Nat → Nat) : Option Nat :=
  scan (fun i => ((s.slots i).m_active != 0) && strncmp_is_eq (s.slots i).m_name name 44)
    0 s.ch_max_consumers

/-- Second loop of register_consumer (lines 391-401): the lowest inactive
slot index below max_consumers. -/
def find_inactive_slot (s : QState) : Option Nat :=
  scan (fun i => (s.slots i).m_active == 0) 0 s.ch_max_consumers

/-- Slot claim of register_consumer (c_mmmq.cpp lines 393-400): slot i
becomes active with m_last_seq = start_seq and strncpy of the name with
bound sizeof(m_name) - 1 = 43; the heartbeat word is untouched. -/
def claim_slot (s : QState) (name : Nat → Nat) (start_seq : Nat) (i : Nat) : QState :=
  { s with
    slots := fun j =>
      if j = i then
        { m_last_update_ns := (s.slots i).m_last_update_ns
          m_last_seq := start_seq
          m_active := 1
          m_name := strncpy_buf (s.slots i).m_name name 43 }
      else s.slots j }

/-- register_consumer (c_mmmq.cpp lines 362-406).  The registry-lock
semaphore serializes the call and is elided here (its failure path only
produces MMQ_ERR_REGISTRY_LOCK before any slot is read).  Returns (error
code, slot out-parameter, new state): a matching active slot is reused
without any mutation, otherwise the first inactive slot is claimed, and
with no slot left the result is MMQ_ERR_CONSUMER_SLOTS_FULL with
slot -1. -/
def register_consumer (s : QState) (name : Nat → Nat) (start_seq : Nat) :
    Int × Int × QState :=
  match find_matching_slot s name with
  | some i => (MMQ_ERR_OK, Int.ofNat i, s)
  | none =>
    match find_inactive_slot s with
    | some i => (MMQ_ERR_OK, Int.ofNat i, claim_slot s name start_seq i)
    | none => (MMQ_ERR_CONSUMER_SLOTS_FULL, -1, s)

-- ====== Consumer attach ======

/-- Inputs of one attach_consumer call: whether the three opens succeed,
the header words the three mapped files expose, and whether the two named
semaphores open. -/
structure attach_inputs where
  open_index_ok : Bool
  open_data_ok : Bool
  open_control_ok : Bool
  ih_magic : Nat
  ih_version : Nat
  ih_align : Nat
  dh_magic : Nat
  dh_version : Nat
  dh_align : Nat
  ch_magic : Nat
  ch_version : Nat
  ch_align : Nat
  sem_new_ok : Bool
  sem_reg_ok : Bool

/-- attach_consumer (c_mmmq.cpp lines 322-359): open index and data
read-only and control read-write, then the three header sanity checks of
lines 344-349 in source order, then the two sem_open calls.  The error
codes are exactly the ones the source returns on each path. -/
def attach_consumer (a : attach_inputs) : Int :=
  if a.open_index_ok = false then MMQ_ERR_INDEX_OPEN_RW
  else if a.open_data_ok = false then MMQ_ERR_DATA_OPEN_RW
  else if a.open_control_ok = false then MMQ_ERR_CONTROL_OPEN_RW
  else if a.ih_magic ≠ MMQ_MAGIC_INDEX ∨ a.ih_version ≠ 1 ∨ a.ih_align ≠ MMQ_ALIGN then
    MMQ_ERR_INDEX_OPEN_RW
  else if a.dh_magic ≠ MMQ_MAGIC_DATA ∨ a.dh_version ≠ 1 ∨ a.dh_align ≠ MMQ_ALIGN then
    MMQ_ERR_DATA_OPEN_RW
  else if a.ch_magic ≠ MMQ_MAGIC_CONTROL ∨ a.ch_version ≠ 1 ∨ a.ch_align ≠ MMQ_ALIGN then
    MMQ_ERR_CONTROL_OPEN_RW
  else if a.sem_new_ok = false ∨ a.sem_reg_ok = false then MMQ_ERR_SEMAPHORE_OPEN
  else MMQ_ERR_OK

-- ====== Timed wait ======

/-- Loop of wait_for_new_timeout (c_mmmq.cpp lines 500-518): while the u32
counter waited_us is below timeout_us, one sem_trywait runs; on success
the function returns true, otherwise it sleeps one 500 microsecond slice
and adds 500 to waited_us with u32 wraparound.  toks lists the outcomes of
the successive sem_trywait calls and bounds the modeled iterations (none
means the supplied outcome list ran out before the loop exited).  The
second component records the waited_us value at each sem_trywait call. -/
def wait_loop (timeout_us : Nat) : List Bool → Nat → Option Bool × List Nat
  | toks, waited_us =>
    if waited_us < timeout_us then
      match toks with
      | [] => (none, [])
      | t :: rest =>
        if t then (some true, [waited_us])
        else
          let r := wait_loop timeout_us rest ((waited_us + 500) % 2 ^ 32)
          (r.1, waited_us :: r.2)
    else (some false, [])

/-- wait_for_new_timeout (c_mmmq.cpp lines 500-518) with waited_us
starting at 0; some false is the timed-out return (errno = ETIMEDOUT),
some true the token-consumed return. -/
def wait_for_new_timeout (toks : List Bool) (timeout_us : Nat) : Option Bool × List Nat :=
  wait_loop timeout_us toks 0

-- ====== Reachable producer states ======

/-- States reachable from a fresh init_producer creation by successful
publish calls (the sequences of states the invariant claims quantify
over). -/
inductive ReachableQ : QState → Prop
  | init (ib db mc bi bd : Nat) : ReachableQ (init_producer ib db mc bi bd)
  | publish_step (s : QState) (msg : Nat → Nat) (len : Nat)
      (dok iok : Bool) (nb ni : Nat)
      (hr : ReachableQ s)
      (hok : (publish s msg len dok iok nb ni).1 = MMQ_ERR_OK) :
      ReachableQ (publish s msg len dok iok nb ni).2

-- ====== Concrete states used as failing inputs ======

/-- Fresh producer state whose index file holds exactly one entry
(32 + 24 = 56 bytes) and whose data file has a 4096 byte payload arena
(4128 bytes in total); the index mapping sits at base 1000 and the data
mapping at base 2000. -/
def tiny_index_state : QState := init_producer 56 4128 4 1000 2000

/-- tiny_index_state after one successful publish of 8 bytes: entry 0 is
committed without any grow and write_pos is 8. -/
def tiny_index_state_1 : QState :=
  (publish tiny_index_state (fun _ => 1) 8 true true 0 0).2

/-- Fresh producer state with a roomy index file and a 4096 byte payload
arena, used for the data-grow scenarios. -/
def small_data_state : QState := init_producer 4096 4128 4 0 0

/-- Consumer-side state holding one committed entry whose flags word has
the ABORTED bit set (seq 0, payload offset 5 * 8 = 40, length 16), with
consumer slot 0 active at last_seq 0. -/
def aborted_entry_state : QState :=
  { init_producer 4096 4128 4 0 0 with
    ih_next_seq := 1
    ih_entry_count := 1
    entries := fun k =>
      if k = 0 then { m_seq := 0, m_off8 := 5, m_len := 16, m_flags := MMQ_FLAG_ABORTED }
      else { m_seq := 0, m_off8 := 0, m_len := 0, m_flags := 0 }
    slots := fun j =>
      if j = 0 then
        { m_last_update_ns := 0, m_last_seq := 0, m_active := 1, m_name := cstr [99] }
      else { m_last_update_ns := 0, m_last_seq := 0, m_active := 0, m_name := fun _ => 0 } }

/-- Name of 44 bytes (44 times the byte 97), one byte longer than the 43
bytes strncpy copies into a slot name buffer. -/
def name44 : List Nat := List.replicate 44 97

/-- Fresh two-slot control state for the registry scenarios. -/
def two_slot_state : QState := init_producer 4096 4128 2 0 0

/-- Attach call on files that open fine but whose index header magic word
is wrong (zero); data and control headers are valid, semaphores open. -/
def attach_bad_index : attach_inputs :=
  { open_index_ok := true, open_data_ok := true, open_control_ok := true
    ih_magic := 0, ih_version := 1, ih_align := 8
    dh_magic := MMQ_MAGIC_DATA, dh_version := 1, dh_align := 8
    ch_magic := MMQ_MAGIC_CONTROL, ch_version := 1, ch_align := 8
    sem_new_ok := true, sem_reg_ok := true }

/-- Attach call whose data header magic word is wrong (zero); the other
two headers are valid. -/
def attach_bad_data : attach_inputs :=
  { attach_bad_index with ih_magic := MMQ_MAGIC_INDEX, dh_magic := 0 }

/-- Attach call whose control header magic word is wrong (zero); the other
two headers are valid. -/
def attach_bad_control : attach_inputs :=
  { attach_bad_index with ih_magic := MMQ_MAGIC_INDEX, ch_magic := 0 }

/-- small_data_state after one successful publish of the 5 byte message
3 3 3 3 3 (entry 0, no grow needed). -/
def reachable_after_one : QState :=
  (publish small_data_state (fun _ => 3) 5 true true 0 0).2

/-- small_data_state after one successful publish of a zero-length
message. -/
def reachable_zero_len : QState :=
  (publish small_data_state (fun _ => 0) 0 true true 0 0).2

-- ====== Helper lemmas ======

/-- The aligned value produced by align_up_u64 with alignment 8 is a
multiple of 8. -/
theorem align_up_u64_eight_mod (x : Nat) : align_up_u64 x 8 % 8 = 0 := by
  unfold align_up_u64
  exact Nat.mul_mod_left _ 8

/-- Without u64 wraparound, align_up_u64 does not move the cursor
backwards. -/
theorem align_up_u64_eight_ge (x : Nat) (h : x + 7 < 2 ^ 64) : x ≤ align_up_u64 x 8 := by
  unfold align_up_u64
  rw [Nat.mod_eq_of_lt (by omega)]
  omega

/-- Reduction modulo 2 ^ 64 preserves divisibility by 8. -/
theorem mod_pow64_eight (a : Nat) (ha : a % 8 = 0) : a % 2 ^ 64 % 8 = 0 := by
  have h8 : (8 : Nat) ∣ 2 ^ 64 := ⟨2 ^ 61, by norm_num⟩
  exact Nat.mod_eq_zero_of_dvd ((Nat.dvd_mod_iff h8).mpr (Nat.dvd_of_mod_eq_zero ha))

/-- Shape of a successful publish: next_seq and entry_count advance to
seq + 1, earlier entries are untouched, the committed entry carries its
own sequence number, and write_pos becomes the aligned end position. -/
theorem publish_ok_shape (s : QState) (msg : Nat → Nat) (len : Nat)
    (dok iok : Bool) (nb ni : Nat)
    (h : (publish s msg len dok iok nb ni).1 = MMQ_ERR_OK) :
    (publish s msg len dok iok nb ni).2.ih_next_seq = s.ih_next_seq + 1 ∧
    (publish s msg len dok iok nb ni).2.ih_entry_count = s.ih_next_seq + 1 ∧
    (∀ k, k < s.ih_next_seq → (publish s msg len dok iok nb ni).2.entries k = s.entries k) ∧
    ((publish s msg len dok iok nb ni).2.entries s.ih_next_seq).m_seq = s.ih_next_seq ∧
    (publish s msg len dok iok nb ni).2.dh_write_pos =
      (align_up_u64 s.dh_write_pos 8 + align_up_u64 len 8) % 2 ^ 64 := by
  simp only [publish, MMQ_ALIGN] at h ⊢
  split_ifs at h ⊢
  all_goals simp only [MMQ_ERR_INDEX_EXTEND, MMQ_ERR_OK] at h
  all_goals try exact absurd h (by decide)
  all_goals exact ⟨by simp [commit_entry, grow_index, write_payload, grow_data],
             by simp [commit_entry, grow_index, write_payload, grow_data],
             fun k hk => by
               simp only [commit_entry, grow_index, write_payload, grow_data]
               rw [if_neg (Nat.ne_of_lt hk)],
             by simp [commit_entry, grow_index, write_payload, grow_data],
             by simp [commit_entry, grow_index, write_payload, grow_data]⟩

/-- C8: after any sequence of successful publishes starting from a freshly
initialized queue, index.next_seq equals index.entry_count and for every
s < next_seq the committed entry at index s carries sequence number s;
every successful publish preserves this invariant (confirmed; the
induction step is exactly one publish). -/
theorem publish_monotone_sequencing (s : QState) (h : ReachableQ s) :
    s.ih_next_seq = s.ih_entry_count ∧
    ∀ k, k < s.ih_next_seq → (s.entries k).m_seq = k := by
  induction h with
  | init ib db mc bi bd =>
    exact ⟨rfl, fun k hk => absurd hk (Nat.not_lt_zero k)⟩
  | publish_step s msg len dok iok nb ni hr hok ih =>
    obtain ⟨h1, h2, h3, h4, _⟩ := publish_ok_shape s msg len dok iok nb ni hok
    refine ⟨by rw [h1, h2], ?_⟩
    intro k hk
    rw [h1] at hk
    rcases Nat.lt_succ_iff_lt_or_eq.mp hk with hk' | hk'
    · rw [h3 k hk']
      exact ih.2 k hk'
    · subst hk'
      exact h4

/-- Witness for C8: the invariant holds concretely after one publish of a
5 byte message on a fresh queue. -/
theorem publish_monotone_sequencing_witness :
    ReachableQ reachable_after_one ∧
    (reachable_after_one.ih_next_seq = reachable_after_one.ih_entry_count ∧
     ∀ k, k < reachable_after_one.ih_next_seq → (reachable_after_one.entries k).m_seq = k) :=
  have hr : ReachableQ reachable_after_one :=
    ReachableQ.publish_step small_data_state (fun _ => 3) 5 true true 0 0
      (ReachableQ.init 4096 4128 4 0 0) (by decide)
  ⟨hr, publish_monotone_sequencing reachable_after_one hr⟩

/-- C9: data.write_pos is a multiple of 8 after init_producer and after
every successful publish (zero-length messages included, since the
reachable states close under publish with any len), and the payload
offset off8 shifted left by 3 is always a multiple of 8 (confirmed). -/
theorem write_pos_alignment (s : QState) (h : ReachableQ s) :
    s.dh_write_pos % 8 = 0 ∧
    ∀ k, k < s.ih_next_seq → ((s.entries k).m_off8 <<< 3) % 8 = 0 := by
  have hsh : ∀ e : index_entry_t, (e.m_off8 <<< 3) % 8 = 0 := by
    intro e
    have h38 : e.m_off8 <<< 3 = e.m_off8 * 8 := by
      rw [Nat.shiftLeft_eq]
    rw [h38]
    exact Nat.mul_mod_left _ _
  induction h with
  | init ib db mc bi bd => exact ⟨rfl, fun k _ => hsh _⟩
  | publish_step s msg len dok iok nb ni hr hok ih =>
    obtain ⟨_, _, _, _, h5⟩ := publish_ok_shape s msg len dok iok nb ni hok
    refine ⟨?_, fun k _ => hsh _⟩
    rw [h5]
    refine mod_pow64_eight _ ?_
    have a1 := align_up_u64_eight_mod s.dh_write_pos
    have a2 := align_up_u64_eight_mod len
    omega

/-- Witness for C9: alignment holds concretely after one zero-length
publish on a fresh queue. -/
theorem write_pos_alignment_witness :
    ReachableQ reachable_zero_len ∧
    (reachable_zero_len.dh_write_pos % 8 = 0 ∧
     ∀ k, k < reachable_zero_len.ih_next_seq →
       ((reachable_zero_len.entries k).m_off8 <<< 3) % 8 = 0) :=
  have hr : ReachableQ reachable_zero_len :=
    ReachableQ.publish_step small_data_state (fun _ => 0) 0 true true 0 0
      (ReachableQ.init 4096 4128 4 0 0) (by decide)
  ⟨hr, write_pos_alignment reachable_zero_len hr⟩

/-- C1: code bug.  A publish from tiny_index_state_1 must make room for
entry 1 (80 bytes needed, 56 available); the index grow succeeds and the
remap moves the index mapping to base 3000, yet the source line
p->m_ih = (index_header_t*)p->m_index_base leaves the typed index-header
pointer at the stale init-time base 1000 instead of re-reading the base
from the mapped-file object, and h->m_index_size keeps 56 instead of the
grown file size 32 + (1 + 65536) * 24 = 1572920, contradicting the
claimed re-derivation and size update. -/
theorem publish_index_grow_keeps_stale_view :
    (publish tiny_index_state_1 (fun _ => 2) 8 true true 0 3000).1 = MMQ_ERR_OK ∧
    (publish tiny_index_state_1 (fun _ => 2) 8 true true 0 3000).2.mf_index_base = 3000 ∧
    (publish tiny_index_state_1 (fun _ => 2) 8 true true 0 3000).2.p_ih_base = 1000 ∧
    (publish tiny_index_state_1 (fun _ => 2) 8 true true 0 3000).2.p_ih_base ≠
      (publish tiny_index_state_1 (fun _ => 2) 8 true true 0 3000).2.mf_index_base ∧
    (publish tiny_index_state_1 (fun _ => 2) 8 true true 0 3000).2.mf_index_size = 1572920 ∧
    (publish tiny_index_state_1 (fun _ => 2) 8 true true 0 3000).2.h_index_size = 56 ∧
    (publish tiny_index_state_1 (fun _ => 2) 8 true true 0 3000).2.h_index_size ≠
      (publish tiny_index_state_1 (fun _ => 2) 8 true true 0 3000).2.mf_index_size := by
  decide

/-- C2: code bug.  Publishing an 8192 byte message into a 4096 byte arena
grows the data file only to h_data_size * 11 / 10 = 4540 bytes (payload
4508), with no max against sufficient_for_end: the call still returns OK
and commits write_pos = 8192 > file_size = 4508, so end <= file_size
fails after the one grow step and the payload copy runs beyond the mapped
payload region for a message larger than 10 percent of the file. -/
theorem publish_data_grow_insufficient :
    (publish small_data_state (fun _ => 0) 8192 true true 0 0).1 = MMQ_ERR_OK ∧
    small_data_state.dh_file_size = 4096 ∧
    (publish small_data_state (fun _ => 0) 8192 true true 0 0).2.dh_file_size = 4508 ∧
    (publish small_data_state (fun _ => 0) 8192 true true 0 0).2.dh_write_pos = 8192 ∧
    (publish small_data_state (fun _ => 0) 8192 true true 0 0).2.dh_write_pos >
      (publish small_data_state (fun _ => 0) 8192 true true 0 0).2.dh_file_size := by
  decide

/-- C5: code bug.  When a header sanity check fails during
attach_consumer, the source returns the open-failure codes of lines
344-349 (MMQ_ERR_INDEX_OPEN_RW, MMQ_ERR_DATA_OPEN_RW,
MMQ_ERR_CONTROL_OPEN_RW) and never the distinctly tagged sanity codes
MMQ_ERR_INDEX_SANITY, MMQ_ERR_DATA_SANITY, MMQ_ERR_CONTROL_SANITY that
the enum and error_str define for exactly this situation. -/
theorem attach_sanity_returns_open_codes :
    attach_consumer attach_bad_index = MMQ_ERR_INDEX_OPEN_RW ∧
    attach_consumer attach_bad_index ≠ MMQ_ERR_INDEX_SANITY ∧
    attach_consumer attach_bad_data = MMQ_ERR_DATA_OPEN_RW ∧
    attach_consumer attach_bad_data ≠ MMQ_ERR_DATA_SANITY ∧
    attach_consumer attach_bad_control = MMQ_ERR_CONTROL_OPEN_RW ∧
    attach_consumer attach_bad_control ≠ MMQ_ERR_CONTROL_SANITY := by
  decide

/-- C6: code bug.  When the data-file grow inside publish fails, line 426
returns the literal -1, which is MMQ_ERR_INDEX_OPEN_RW, not the dedicated
MMQ_ERR_DATA_EXTEND = -11 defined by the enum and documented by
error_str. -/
theorem publish_data_grow_failure_code :
    (publish small_data_state (fun _ => 0) 8192 false true 0 0).1 = -1 ∧
    (-1 : Int) = MMQ_ERR_INDEX_OPEN_RW ∧
    MMQ_ERR_DATA_EXTEND = -11 ∧
    (publish small_data_state (fun _ => 0) 8192 false true 0 0).1 ≠ MMQ_ERR_DATA_EXTEND := by
  decide

/-- C4 (amended): a publish that fails leaves index.next_seq,
index.entry_count, the whole entry array, control.notify_seq and every
payload byte below the prior write_pos unchanged (no entry is committed),
and a data-grow failure (the -1 return of line 426) leaves the whole
state untouched; an index-grow failure however occurs after the payload
copy and the write_pos commit of lines 433-437, so data.write_pos is then
already advanced, which is exactly what the counterexample theorem shows
against the claim as frozen. -/
theorem publish_failure_preserves_commit_state (s : QState) (msg : Nat → Nat)
    (len : Nat) (dok iok : Bool) (nb ni : Nat)
    (hWp : s.dh_write_pos + 7 < 2 ^ 64) :
    ((publish s msg len dok iok nb ni).1 = -1 → (publish s msg len dok iok nb ni).2 = s) ∧
    ((publish s msg len dok iok nb ni).1 ≠ MMQ_ERR_OK →
      (publish s msg len dok iok nb ni).2.ih_next_seq = s.ih_next_seq ∧
      (publish s msg len dok iok nb ni).2.ih_entry_count = s.ih_entry_count ∧
      (publish s msg len dok iok nb ni).2.entries = s.entries ∧
      (publish s msg len dok iok nb ni).2.ch_notify_seq = s.ch_notify_seq ∧
      ∀ i, i < s.dh_write_pos → (publish s msg len dok iok nb ni).2.payload i = s.payload i) := by
  have hneA : (MMQ_ERR_INDEX_EXTEND : Int) ≠ -1 := by decide
  have hneB : (MMQ_ERR_OK : Int) ≠ -1 := by decide
  simp only [publish, MMQ_ALIGN]
  split_ifs
  all_goals refine ⟨fun hc => ?_, fun hc => ?_⟩
  all_goals first
    | exact rfl
    | exact absurd hc hneA
    | exact absurd hc hneB
    | exact absurd rfl hc
    | exact ⟨rfl, rfl, rfl, rfl, fun i _ => rfl⟩
    | (have hpos := align_up_u64_eight_ge s.dh_write_pos hWp
       refine ⟨rfl, rfl, rfl, rfl, fun i hi => ?_⟩
       simp only [write_payload, grow_data]
       rw [if_neg (by omega), if_neg (by omega)])

/-- Counterexample for C4: from tiny_index_state_1 (write_pos 8) a publish
of 8 more bytes needs index room for entry 1; the index grow fails and
publish returns MMQ_ERR_INDEX_EXTEND, yet data.write_pos has already been
advanced to 16, so the previously observable queue state is not all
unchanged as the claim as frozen states. -/
theorem publish_index_grow_failure_moves_write_pos :
    (publish tiny_index_state_1 (fun _ => 2) 8 true false 0 0).1 = MMQ_ERR_INDEX_EXTEND ∧
    tiny_index_state_1.dh_write_pos = 8 ∧
    (publish tiny_index_state_1 (fun _ => 2) 8 true false 0 0).2.dh_write_pos = 16 ∧
    (publish tiny_index_state_1 (fun _ => 2) 8 true false 0 0).2.dh_write_pos ≠
      tiny_index_state_1.dh_write_pos := by
  decide

/-- Witness for C4: the amended preservation statement instantiated at the
index-grow-failure publish from tiny_index_state_1. -/
theorem publish_failure_preserves_commit_state_witness :
    tiny_index_state_1.dh_write_pos + 7 < 2 ^ 64 ∧
    (((publish tiny_index_state_1 (fun _ => 2) 8 true false 0 0).1 = -1 →
        (publish tiny_index_state_1 (fun _ => 2) 8 true false 0 0).2 = tiny_index_state_1) ∧
     ((publish tiny_index_state_1 (fun _ => 2) 8 true false 0 0).1 ≠ MMQ_ERR_OK →
        (publish tiny_index_state_1 (fun _ => 2) 8 true false 0 0).2.ih_next_seq =
          tiny_index_state_1.ih_next_seq ∧
        (publish tiny_index_state_1 (fun _ => 2) 8 true false 0 0).2.ih_entry_count =
          tiny_index_state_1.ih_entry_count ∧
        (publish tiny_index_state_1 (fun _ => 2) 8 true false 0 0).2.entries =
          tiny_index_state_1.entries ∧
        (publish tiny_index_state_1 (fun _ => 2) 8 true false 0 0).2.ch_notify_seq =
          tiny_index_state_1.ch_notify_seq ∧
        ∀ i, i < tiny_index_state_1.dh_write_pos →
          (publish tiny_index_state_1 (fun _ => 2) 8 true false 0 0).2.payload i =
            tiny_index_state_1.payload i)) :=
  ⟨by decide,
   publish_failure_preserves_commit_state tiny_index_state_1 (fun _ => 2) 8 true false 0 0
     (by decide)⟩

/-- Counterexample for C3: in aborted_entry_state entry 0 has the ABORTED
bit set, yet consumer_drain returns has_message = true together with that
entry (payload offset 5 <<< 3 = 40, length 16) and advances last_seq, so
a (ptr, len, true) result does correspond to an ABORTED entry and the
entry is not skipped. -/
theorem consumer_drain_returns_aborted_entry :
    (aborted_entry_state.entries 0).m_flags &&& MMQ_FLAG_ABORTED ≠ 0 ∧
    (aborted_entry_state.slots 0).m_last_seq = 0 ∧
    (consumer_drain aborted_entry_state 0).1.1 = true ∧
    (consumer_drain aborted_entry_state 0).1.2.1 = some 40 ∧
    (consumer_drain aborted_entry_state 0).1.2.2 = 16 ∧
    ((consumer_drain aborted_entry_state 0).2.slots 0).m_last_seq = 1 := by
  decide

/-- C3 (amended): consumer_drain never inspects the flags field: for
every state and slot with last_seq < next_seq — entries with the ABORTED
bit set included — it returns has_message = true with the payload offset
off8 <<< 3 and the length of that entry, and advances the slot cursor by
exactly one; no skipping of ABORTED entries exists on this path. -/
theorem consumer_drain_ignores_flags (s : QState) (idx : Nat)
    (h : (s.slots idx).m_last_seq < s.ih_next_seq) :
    (consumer_drain s idx).1.1 = true ∧
    (consumer_drain s idx).1.2.1 =
      some ((s.entries (s.slots idx).m_last_seq).m_off8 <<< 3) ∧
    (consumer_drain s idx).1.2.2 = (s.entries (s.slots idx).m_last_seq).m_len ∧
    ((consumer_drain s idx).2.slots idx).m_last_seq = (s.slots idx).m_last_seq + 1 := by
  simp only [consumer_drain]
  rw [if_pos h]
  exact ⟨rfl, rfl, rfl, by simp⟩

/-- Witness for C3: the amended statement instantiated at
aborted_entry_state, whose pending entry carries the ABORTED bit. -/
theorem consumer_drain_ignores_flags_witness :
    (aborted_entry_state.slots 0).m_last_seq < aborted_entry_state.ih_next_seq ∧
    ((consumer_drain aborted_entry_state 0).1.1 = true ∧
     (consumer_drain aborted_entry_state 0).1.2.1 =
       some ((aborted_entry_state.entries (aborted_entry_state.slots 0).m_last_seq).m_off8 <<< 3) ∧
     (consumer_drain aborted_entry_state 0).1.2.2 =
       (aborted_entry_state.entries (aborted_entry_state.slots 0).m_last_seq).m_len ∧
     ((consumer_drain aborted_entry_state 0).2.slots 0).m_last_seq =
       (aborted_entry_state.slots 0).m_last_seq + 1) :=
  ⟨by decide, consumer_drain_ignores_flags aborted_entry_state 0 (by decide)⟩

/-- A scan result carries its bounds: the hit satisfies the predicate,
lies in the scanned window, and every index before it fails. -/
theorem scan_eq_some (p : Nat → Bool) :
    ∀ (n i k : Nat), scan p i n = some k →
      p k = true ∧ i ≤ k ∧ k < i + n ∧ ∀ j, i ≤ j → j < k → p j = false := by
  intro n
  induction n with
  | zero => intro i k h; simp [scan] at h
  | succ m ih =>
    intro i k h
    simp only [scan] at h
    by_cases hp : p i
    · rw [if_pos hp] at h
      have hik := Option.some.inj h
      subst hik
      exact ⟨hp, Nat.le_refl i, by omega, fun j hj1 hj2 => absurd hj1 (by omega)⟩
    · rw [if_neg hp] at h
      obtain ⟨h1, h2, h3, h4⟩ := ih (i + 1) k h
      refine ⟨h1, by omega, by omega, fun j hj1 hj2 => ?_⟩
      by_cases hji : j = i
      · subst hji
        exact Bool.eq_false_iff.mpr hp
      · exact h4 j (by omega) hj2

/-- An empty scan means every index of the window fails the predicate. -/
theorem scan_eq_none (p : Nat → Bool) :
    ∀ (n i : Nat), scan p i n = none → ∀ j, i ≤ j → j < i + n → p j = false := by
  intro n
  induction n with
  | zero => intro i _ j hj1 hj2; omega
  | succ m ih =>
    intro i h j hj1 hj2
    simp only [scan] at h
    by_cases hp : p i
    · rw [if_pos hp] at h
      exact absurd h (by simp)
    · rw [if_neg hp] at h
      by_cases hji : j = i
      · subst hji
        exact Bool.eq_false_iff.mpr hp
      · exact ih (i + 1) h j (by omega) (by omega)

/-- Conversely, scan finds the first index of the window satisfying the
predicate. -/
theorem scan_intro (p : Nat → Bool) :
    ∀ (n i k : Nat), i ≤ k → k < i + n → p k = true →
      (∀ j, i ≤ j → j < k → p j = false) → scan p i n = some k := by
  intro n
  induction n with
  | zero => intro i k h1 h2; omega
  | succ m ih =>
    intro i k h1 h2 h3 h4
    simp only [scan]
    by_cases hik : i = k
    · subst hik
      rw [if_pos h3]
    · have hpi : p i = false := h4 i (Nat.le_refl i) (by omega)
      rw [if_neg (by simp [hpi])]
      exact ih (i + 1) k (by omega) (by omega) h3 (fun j hj1 hj2 => h4 j (by omega) hj2)

/-- Bytewise equal prefixes compare equal under strncmp. -/
theorem strncmp_is_eq_of_pointwise :
    ∀ (n : Nat) (a b : Nat → Nat), (∀ k, k < n → a k = b k) →
      strncmp_is_eq a b n = true := by
  intro n
  induction n with
  | zero => intro a b _; rfl
  | succ m ih =>
    intro a b h
    simp only [strncmp_is_eq]
    rw [if_pos (h 0 (Nat.succ_pos m))]
    by_cases h0 : a 0 = 0
    · rw [if_pos h0]
    · rw [if_neg h0]
      exact ih _ _ fun k hk => h (k + 1) (by omega)

/-- A name of at most 43 nonzero bytes, copied by strncpy with bound 43
into a buffer whose 44th byte is zero, compares equal to itself under
strncmp with bound 44. -/
theorem strncpy_matches (nameL : List Nat) (old : Nat → Nat)
    (hlen : nameL.length ≤ 43) (hnz : ∀ x ∈ nameL, x ≠ 0) (h43 : old 43 = 0) :
    strncmp_is_eq (strncpy_buf old (cstr nameL) 43) (cstr nameL) 44 = true := by
  apply strncmp_is_eq_of_pointwise
  intro k hk
  by_cases hk43 : k < 43
  · simp only [strncpy_buf]
    rw [if_pos hk43]
    by_cases hknul : noNulBefore (cstr nameL) k = true
    · rw [if_pos hknul]
    · rw [if_neg hknul]
      have hex : ∃ j, j < k ∧ cstr nameL j = 0 := by
        by_contra hno
        push_neg at hno
        apply hknul
        simp only [noNulBefore, List.all_eq_true]
        intro j hj
        rw [List.mem_range] at hj
        simp only [bne_iff_ne, ne_eq]
        exact hno j hj
      obtain ⟨j, hjk, hj0⟩ := hex
      have hjlen : nameL.length ≤ j := by
        by_contra hlt
        push_neg at hlt
        have hne : cstr nameL j ≠ 0 := by
          simp only [cstr]
          rw [List.getD_eq_getElem _ _ hlt]
          exact hnz _ (List.getElem_mem hlt)
        exact hne hj0
      have hck : cstr nameL k = 0 := by
        simp only [cstr]
        exact List.getD_eq_default _ _ (by omega)
      omega
  · have hk' : k = 43 := by omega
    subst hk'
    simp only [strncpy_buf]
    rw [if_neg (by omega), h43]
    have hck : cstr nameL 43 = 0 := by
      simp only [cstr]
      exact List.getD_eq_default _ _ (by omega)
    omega

/-- Counterexample for C7: with the 44 byte name name44, the first
registration on a fresh two-slot table claims slot 0 (storing only 43
bytes), and the second registration with the very same name does not
match the truncated stored name (stored byte 43 is 0, name byte 43 is
97), so it claims slot 1 — a different slot index — and sets the new
slot cursor to the second start_seq 999, refuting the claim for every
name. -/
theorem register_consumer_long_name_new_slot :
    (register_consumer two_slot_state (cstr name44) 7).1 = MMQ_ERR_OK ∧
    (register_consumer two_slot_state (cstr name44) 7).2.1 = 0 ∧
    (register_consumer (register_consumer two_slot_state (cstr name44) 7).2.2
      (cstr name44) 999).1 = MMQ_ERR_OK ∧
    (register_consumer (register_consumer two_slot_state (cstr name44) 7).2.2
      (cstr name44) 999).2.1 = 1 ∧
    (register_consumer (register_consumer two_slot_state (cstr name44) 7).2.2
      (cstr name44) 999).2.1 ≠ (register_consumer two_slot_state (cstr name44) 7).2.1 ∧
    (((register_consumer (register_consumer two_slot_state (cstr name44) 7).2.2
      (cstr name44) 999).2.2).slots 1).m_last_seq = 999 := by
  decide

/-- C7 (amended): for every name that fits the slot buffer with its
terminator — at most 43 bytes, none of them NUL — and every pair of
start_seq values, registering twice with that name returns the same slot
index both times and the second call leaves the whole control state, in
particular the slot cursor last_seq, unchanged; names of 44 bytes or more
are truncated on store and fail the reattach match (see the
counterexample).  The hypothesis on byte 43 of each stored name holds in
every state the producer initializes, since init zeroes the table and
strncpy never writes that byte. -/
theorem register_consumer_reattach_preserves (s : QState) (nameL : List Nat) (a b : Nat)
    (hlen : nameL.length ≤ 43) (hnz : ∀ x ∈ nameL, x ≠ 0)
    (h43 : ∀ j, (s.slots j).m_name 43 = 0)
    (hok : (register_consumer s (cstr nameL) a).1 = MMQ_ERR_OK) :
    (register_consumer (register_consumer s (cstr nameL) a).2.2 (cstr nameL) b).1 =
      MMQ_ERR_OK ∧
    (register_consumer (register_consumer s (cstr nameL) a).2.2 (cstr nameL) b).2.1 =
      (register_consumer s (cstr nameL) a).2.1 ∧
    (register_consumer (register_consumer s (cstr nameL) a).2.2 (cstr nameL) b).2.2 =
      (register_consumer s (cstr nameL) a).2.2 := by
  cases hm : find_matching_slot s (cstr nameL) with
  | some i =>
    have hr1 : register_consumer s (cstr nameL) a = (MMQ_ERR_OK, Int.ofNat i, s) := by
      unfold register_consumer
      rw [hm]
    have hr2 : register_consumer s (cstr nameL) b = (MMQ_ERR_OK, Int.ofNat i, s) := by
      unfold register_consumer
      rw [hm]
    simp [hr1, hr2]
  | none =>
    cases hi : find_inactive_slot s with
    | none =>
      have hr1 : register_consumer s (cstr nameL) a =
          (MMQ_ERR_CONSUMER_SLOTS_FULL, -1, s) := by
        unfold register_consumer
        rw [hm, hi]
      rw [hr1] at hok
      simp [MMQ_ERR_CONSUMER_SLOTS_FULL, MMQ_ERR_OK] at hok
    | some i =>
      have hr1 : register_consumer s (cstr nameL) a =
          (MMQ_ERR_OK, Int.ofNat i, claim_slot s (cstr nameL) a i) := by
        unfold register_consumer
        rw [hm, hi]
      simp only [find_inactive_slot] at hi
      obtain ⟨hpi, -, hilt, hprev⟩ := scan_eq_some _ _ _ _ hi
      simp only [find_matching_slot] at hm
      have hmat_none := scan_eq_none _ _ _ hm
      have hslot_i : (claim_slot s (cstr nameL) a i).slots i =
          { m_last_update_ns := (s.slots i).m_last_update_ns
            m_last_seq := a
            m_active := 1
            m_name := strncpy_buf (s.slots i).m_name (cstr nameL) 43 } := by
        simp [claim_slot]
      have hslot_ne : ∀ j, j ≠ i →
          (claim_slot s (cstr nameL) a i).slots j = s.slots j := by
        intro j hj
        simp [claim_slot, hj]
      have hfind : find_matching_slot (claim_slot s (cstr nameL) a i) (cstr nameL) =
          some i := by
        simp only [find_matching_slot]
        apply scan_intro
        · exact Nat.zero_le i
        · simpa [claim_slot] using hilt
        · rw [hslot_i]
          rw [Bool.and_eq_true]
          exact ⟨rfl, strncpy_matches nameL _ hlen hnz (h43 i)⟩
        · intro j hj0 hji
          rw [hslot_ne j (Nat.ne_of_lt hji)]
          exact hmat_none j hj0 (by omega)
      have hr2 : register_consumer (claim_slot s (cstr nameL) a i) (cstr nameL) b =
          (MMQ_ERR_OK, Int.ofNat i, claim_slot s (cstr nameL) a i) := by
        unfold register_consumer
        rw [hfind]
      simp [hr1, hr2]

/-- Witness for C7: the amended reattach statement instantiated with the
3 byte name 99 111 110 on a fresh two-slot table. -/
theorem register_consumer_reattach_preserves_witness :
    ([99, 111, 110] : List Nat).length ≤ 43 ∧
    (∀ x ∈ ([99, 111, 110] : List Nat), x ≠ 0) ∧
    (∀ j, (two_slot_state.slots j).m_name 43 = 0) ∧
    (register_consumer two_slot_state (cstr [99, 111, 110]) 7).1 = MMQ_ERR_OK ∧
    ((register_consumer (register_consumer two_slot_state (cstr [99, 111, 110]) 7).2.2
        (cstr [99, 111, 110]) 999).1 = MMQ_ERR_OK ∧
     (register_consumer (register_consumer two_slot_state (cstr [99, 111, 110]) 7).2.2
        (cstr [99, 111, 110]) 999).2.1 =
       (register_consumer two_slot_state (cstr [99, 111, 110]) 7).2.1 ∧
     (register_consumer (register_consumer two_slot_state (cstr [99, 111, 110]) 7).2.2
        (cstr [99, 111, 110]) 999).2.2 =
       (register_consumer two_slot_state (cstr [99, 111, 110]) 7).2.2) :=
  ⟨by decide, by decide, fun _ => rfl, by decide,
   register_consumer_reattach_preserves two_slot_state [99, 111, 110] 7 999
     (by decide) (by decide) (fun _ => rfl) (by decide)⟩

/-- C10: wait_for_new_timeout called with timeout_us = 0 returns
timed-out (some false) immediately with an empty trywait trace, for every
token sequence, so a pending token is never consumed by a zero-timeout
call; and in general every sem_trywait of the loop happens at a waited_us
counter value strictly below timeout_us (confirmed). -/
theorem wait_timeout_guard :
    ∀ (toks : List Bool) (timeout_us : Nat),
      wait_for_new_timeout toks 0 = (some false, []) ∧
      ((wait_for_new_timeout toks timeout_us).2.all fun w => decide (w < timeout_us)) =
        true := by
  have hguard : ∀ (timeout_us : Nat) (toks : List Bool) (waited : Nat),
      ∀ w ∈ (wait_loop timeout_us toks waited).2, w < timeout_us := by
    intro timeout_us toks
    induction toks with
    | nil =>
      intro waited w hw
      simp only [wait_loop] at hw
      split_ifs at hw <;> simp at hw
    | cons t rest ih =>
      intro waited w hw
      simp only [wait_loop] at hw
      split_ifs at hw with h1 h2
      · simp at hw
        omega
      · simp at hw
        rcases hw with hw | hw
        · omega
        · exact ih _ w hw
      · simp at hw
  intro toks timeout_us
  constructor
  · cases toks <;> simp [wait_for_new_timeout, wait_loop]
  · rw [List.all_eq_true]
    intro w hw
    simpa using hguard timeout_us toks 0 w hw
